import Mathlib

/-!
# Guestbook bootstrap: a shallow embedding of `v1/main.go` and `v2/main.go`

Both programs build a handful of static Kubernetes objects and submit them
with one create call each.  The embedding has three layers:

* `Api`: the client-library object types (`v1.Service`, `v1.ReplicationController`,
  `v1beta1.Deployment`, ...), restricted to the fields that either program
  assigns; every other field of those types keeps its zero value in both programs.
* the outside world: the error values, the clients (arbitrary functions that
  answer each create request with success or an error) and the trace of effects
  (create requests issued and log lines printed).
* `V1` and `V2`: the two programs, function by function, in explicit
  trace-passing style.

Go maps (`map[string]string`) are association lists in increasing key order;
an unset (nil) map is the empty list.  `int32` values are integers: the
programs only copy them.
-/

set_option linter.dupNamespace false

/-- A Go `map[string]string` label set, as an association list in key order. -/
abbrev Labels := List (String × String)

namespace Api

/-- Type `unversioned.TypeMeta`. -/
structure TypeMeta where
  Kind : String := ""
  APIVersion : String := ""
deriving DecidableEq, Repr

/-- Type `v1.ObjectMeta` (fields assigned by the programs). -/
structure ObjectMeta where
  Name : String := ""
  Labels : Labels := []
deriving DecidableEq, Repr

/-- Type `v1.ContainerPort`. -/
structure ContainerPort where
  Name : String := ""
  HostPort : Int := 0
  ContainerPort : Int := 0
deriving DecidableEq, Repr

/-- Type `v1.Container`. -/
structure Container where
  Name : String := ""
  Image : String := ""
  Ports : List ContainerPort := []
deriving DecidableEq, Repr

/-- Type `v1.PodSpec`. -/
structure PodSpec where
  Containers : List Container := []
deriving DecidableEq, Repr

/-- Type `v1.PodTemplateSpec`. -/
structure PodTemplateSpec where
  ObjectMeta : ObjectMeta := {}
  Spec : PodSpec := {}
deriving DecidableEq, Repr

/-- Type `v1.ReplicationControllerSpec`; `Replicas` and `Template` are pointers. -/
structure ReplicationControllerSpec where
  Replicas : Option Int := none
  Selector : Labels := []
  Template : Option PodTemplateSpec := none
deriving DecidableEq, Repr

/-- Type `v1.ReplicationController`. -/
structure ReplicationController where
  TypeMeta : TypeMeta := {}
  ObjectMeta : ObjectMeta := {}
  Spec : ReplicationControllerSpec := {}
deriving DecidableEq, Repr

/-- Type `v1beta1.LabelSelector`. -/
structure LabelSelector where
  MatchLabels : Labels := []
deriving DecidableEq, Repr

/-- Type `v1beta1.DeploymentSpec`; `Replicas` and `Selector` are pointers. -/
structure DeploymentSpec where
  Replicas : Option Int := none
  Selector : Option LabelSelector := none
  Template : PodTemplateSpec := {}
deriving DecidableEq, Repr

/-- Type `v1beta1.Deployment`. -/
structure Deployment where
  TypeMeta : TypeMeta := {}
  ObjectMeta : ObjectMeta := {}
  Spec : DeploymentSpec := {}
deriving DecidableEq, Repr

/-- The discriminator `intstr.Type` of an `IntOrString`. -/
inductive IntstrType where
  | Int
  | String
deriving DecidableEq, Repr

/-- Type `intstr.IntOrString`: a port given by number or by name. -/
structure IntOrString where
  Type_ : IntstrType := IntstrType.Int
  IntVal : Int := 0
  StrVal : String := ""
deriving DecidableEq, Repr

/-- Type `v1.ServiceType`, a string; the zero value `""` is the unset default. -/
abbrev ServiceType := String

/-- The client library's constant `v1.ServiceTypeLoadBalancer`. -/
def ServiceTypeLoadBalancer : ServiceType := "LoadBalancer"

/-- Type `v1.ServicePort`. -/
structure ServicePort where
  Port : Int := 0
  TargetPort : IntOrString := {}
deriving DecidableEq, Repr

/-- Type `v1.ServiceSpec`. -/
structure ServiceSpec where
  Ports : List ServicePort := []
  Selector : Labels := []
  Type_ : ServiceType := ""
deriving DecidableEq, Repr

/-- Type `v1.Service`. -/
structure Service where
  TypeMeta : TypeMeta := {}
  ObjectMeta : ObjectMeta := {}
  Spec : ServiceSpec := {}
deriving DecidableEq, Repr

end Api

/-! ## The outside world -/

/-- A Go error value: a base error of some library, or one wrapped by `errors.Wrap`. -/
inductive GoError where
  | base (msg : String)
  | wrap (cause : GoError) (message : String)
deriving DecidableEq, Repr

/-- The method `Error()`: a wrapped error prints its message, `": "`, then its cause. -/
def GoError.Error : GoError → String
  | .base msg => msg
  | .wrap cause message => message ++ ": " ++ cause.Error

/-- The call `errors.Wrap(err, message)` on a non-nil `err`. -/
def errors.Wrap (err : GoError) (message : String) : GoError :=
  GoError.wrap err message

/-- One create request sent to the cluster: the namespace it is scoped to and the object. -/
inductive Request where
  | replicationController (ns : String) (rc : Api.ReplicationController)
  | service (ns : String) (svc : Api.Service)
  | deployment (ns : String) (dep : Api.Deployment)
deriving DecidableEq, Repr

/-- The core clientset.  Each `Create` answers with `none` (success) or an error;
the answer may depend on every request issued before (first argument). -/
structure Clientset where
  createReplicationController :
    List Request → String → Api.ReplicationController → Option GoError
  createService : List Request → String → Api.Service → Option GoError

/-- The extensions client, which serves deployments. -/
structure ExtensionsClient where
  createDeployment : List Request → String → Api.Deployment → Option GoError

/-- The libraries the programs run against, for an arbitrary configuration type `Cfg`.
`flagParse` is `flag.Parse()` on the process arguments: on a command line it rejects,
the default flag set ends the process with a status (`.error status`); otherwise it
returns, with the value given for `-kubeconfig`, if any.  The other three fields are
the client library's constructors. -/
structure Env (Cfg : Type) where
  flagParse : List String → Except Nat (Option String)
  BuildConfigFromFlags : String → String → Except GoError Cfg
  kubernetesNewForConfig : Cfg → Except GoError Clientset
  v1beta1NewForConfig : Cfg → Except GoError ExtensionsClient

/-- The observable effects of a run so far: create requests and log lines, oldest first. -/
structure Trace where
  calls : List Request := []
  log : List String := []
deriving DecidableEq, Repr

/-- The call `log.Println(line)`. -/
def Println (line : String) (t : Trace) : Trace :=
  { t with log := t.log ++ [line] }

/-- The statement `if err != nil { log.Println(err) }`. -/
def logIfErr (err : Option GoError) (t : Trace) : Trace :=
  match err with
  | some e => Println e.Error t
  | none => t

/-- Appends a create request to the trace. -/
def Trace.record (t : Trace) (r : Request) : Trace :=
  { t with calls := t.calls ++ [r] }

/-- How a process ends: its exit status and everything it did. -/
structure Outcome where
  exitCode : Nat
  trace : Trace
deriving DecidableEq, Repr

/-- Whether a request creates a workload (replication controller or deployment). -/
def Request.isWorkload : Request → Bool
  | .replicationController _ _ => true
  | .deployment _ _ => true
  | .service _ _ => false

/-- Whether a request creates a service. -/
def Request.isService : Request → Bool
  | .service _ _ => true
  | _ => false

/-- The namespace a request is scoped to. -/
def Request.ns : Request → String
  | .replicationController ns _ => ns
  | .service ns _ => ns
  | .deployment ns _ => ns

/-- The metadata name of the submitted object. -/
def Request.name : Request → String
  | .replicationController _ rc => rc.ObjectMeta.Name
  | .service _ svc => svc.ObjectMeta.Name
  | .deployment _ dep => dep.ObjectMeta.Name

/-- The replica count of a submitted workload (`none` for a service or a nil pointer). -/
def Request.replicas : Request → Option Int
  | .replicationController _ rc => rc.Spec.Replicas
  | .deployment _ dep => dep.Spec.Replicas
  | .service _ _ => none

/-- The port numbers of a pod template: every container port of every container. -/
def Api.PodTemplateSpec.portNumbers (tpl : Api.PodTemplateSpec) : List Int :=
  tpl.Spec.Containers.flatMap fun c => c.Ports.map fun p => p.ContainerPort

/-- The port numbers of a request: container ports of a workload, ports of a service. -/
def Request.ports : Request → List Int
  | .replicationController _ rc =>
      match rc.Spec.Template with
      | some tpl => tpl.portNumbers
      | none => []
  | .deployment _ dep => dep.Spec.Template.portNumbers
  | .service _ svc => svc.Spec.Ports.map fun p => p.Port

/-- The summary of a request: is it a workload, namespace, name, replicas, ports. -/
def Request.summary (r : Request) : Bool × String × String × Option Int × List Int :=
  (r.isWorkload, r.ns, r.name, r.replicas, r.ports)

/-! ## Version 1: replication controllers (`v1/main.go`) -/

namespace V1

/-- The package variable `namespace`. -/
def kubeNamespace : String := "default"

/-- The package variable `repContTypeMeta` (the kind is spelled as in the source). -/
def repContTypeMeta : Api.TypeMeta := { Kind := "RepliationController", APIVersion := "1" }

/-- The package variable `serviceTypeMeata`. -/
def serviceTypeMeata : Api.TypeMeta := { Kind := "Service", APIVersion := "1" }

/-- Holds the clientset used to talk to the cluster. -/
structure KubeClient where
  clientset : Clientset

/-- The specification of a replication controller. -/
structure ReplicationController where
  Labels : Labels := []
  Name : String := ""
  Image : String := ""
  PortName : String := ""
  PortNumber : Int := 0
  Replicas : Int := 0
deriving DecidableEq, Repr

/-- The specification of a service. -/
structure Service where
  Labels : Labels := []
  Name : String := ""
  ServicePort : Int := 0
  TargetPort : Api.IntOrString := {}
  Type_ : Api.ServiceType := ""
deriving DecidableEq, Repr

/-- The object `rc` built at the start of `createReplicationController`. -/
def rcObject (repCont : ReplicationController) : Api.ReplicationController :=
  { TypeMeta := repContTypeMeta
    ObjectMeta := { Name := repCont.Name, Labels := repCont.Labels }
    Spec :=
      { Replicas := some repCont.Replicas
        Selector := repCont.Labels
        Template := some
          { ObjectMeta := { Labels := repCont.Labels }
            Spec :=
              { Containers :=
                  [{ Name := repCont.Name
                     Image := repCont.Image
                     Ports :=
                       [{ Name := repCont.PortName
                          ContainerPort := repCont.PortNumber }] }] } } } }

/-- Builds the replication controller, issues the create call, wraps a failure. -/
def createReplicationController (kc : KubeClient) (repCont : ReplicationController)
    (t : Trace) : Option GoError × Trace :=
  let rc := rcObject repCont
  let err := kc.clientset.createReplicationController t.calls kubeNamespace rc
  let t := t.record (Request.replicationController kubeNamespace rc)
  match err with
  | some e => (some (errors.Wrap e "Error creating replication controller"), t)
  | none => (none, t)

/-- The object `svc` built at the start of `createService`. -/
def svcObject (service : Service) : Api.Service :=
  { TypeMeta := serviceTypeMeata
    ObjectMeta := { Name := service.Name, Labels := service.Labels }
    Spec :=
      { Ports := [{ Port := service.ServicePort, TargetPort := service.TargetPort }]
        Selector := service.Labels
        Type_ := service.Type_ } }

/-- Builds the service, issues the create call, wraps a failure. -/
def createService (kc : KubeClient) (service : Service) (t : Trace) :
    Option GoError × Trace :=
  let svc := svcObject service
  let err := kc.clientset.createService t.calls kubeNamespace svc
  let t := t.record (Request.service kubeNamespace svc)
  match err with
  | some e => (some (errors.Wrap e "Error creating service"), t)
  | none => (none, t)

/-- The local `redisRepCont` of `CreateGuestBook`. -/
def redisRepCont : ReplicationController :=
  { Name := "redis-master"
    Labels := [("app", "redis"), ("role", "master")]
    Image := "redis:2.8.23"
    PortName := "redis-server"
    PortNumber := 6379
    Replicas := 1 }

/-- The local `redisService` of `CreateGuestBook`. -/
def redisService : Service :=
  { Name := "redis-master"
    Labels := [("app", "redis"), ("role", "master")]
    ServicePort := 6379
    TargetPort := { Type_ := Api.IntstrType.String, StrVal := "redis-server" } }

/-- The local `redisSlaveRepCont` of `CreateGuestBook`. -/
def redisSlaveRepCont : ReplicationController :=
  { Name := "redis-slave"
    Labels := [("app", "redis"), ("role", "slave")]
    Image := "kubernetes/redis-slave:v2"
    PortName := "redis-server"
    PortNumber := 6379
    Replicas := 3 }

/-- The local `redisSlaveService` of `CreateGuestBook`. -/
def redisSlaveService : Service :=
  { Name := "redis-slave"
    Labels := [("app", "redis"), ("role", "slave")]
    ServicePort := 6379
    TargetPort := { Type_ := Api.IntstrType.String, StrVal := "redis-server" } }

/-- The local `guestBookRepCont` of `CreateGuestBook`. -/
def guestBookRepCont : ReplicationController :=
  { Name := "guestbook"
    Labels := [("app", "guestbook")]
    Image := "gcr.io/google_containers/guestbook:v3"
    PortName := "http-server"
    PortNumber := 3000
    Replicas := 3 }

/-- The local `guestbookService` of `CreateGuestBook`. -/
def guestbookService : Service :=
  { Name := "guestbook"
    Labels := [("app", "guestbook")]
    ServicePort := 3000
    TargetPort := { StrVal := "http-server", Type_ := Api.IntstrType.String }
    Type_ := Api.ServiceTypeLoadBalancer }

/-- Creates the guestbook application: six submissions, each error only logged. -/
def CreateGuestBook (kc : KubeClient) (t : Trace) : Trace :=
  let t := Println "Creating redis-master Replication Controller" t
  let r := createReplicationController kc redisRepCont t
  let t := logIfErr r.1 r.2
  let t := Println "Creating redis-master Service" t
  let r := createService kc redisService t
  let t := logIfErr r.1 r.2
  let t := Println "Creating redis-slave Replication Controller" t
  let r := createReplicationController kc redisSlaveRepCont t
  let t := logIfErr r.1 r.2
  let t := Println "Creating redis-slave Service" t
  let r := createService kc redisSlaveService t
  let t := logIfErr r.1 r.2
  let t := Println "Creating guestbook Replication Controller" t
  let r := createReplicationController kc guestBookRepCont t
  let t := logIfErr r.1 r.2
  let t := Println "Creating guestbook Service" t
  let r := createService kc guestbookService t
  logIfErr r.1 r.2

/-- Reads the configuration and builds the clientset; each failure is wrapped. -/
def getClient {Cfg : Type} (env : Env Cfg) (configPath : String) (t : Trace) :
    Except GoError Clientset × Trace :=
  match env.BuildConfigFromFlags "" configPath with
  | .error err => (.error (errors.Wrap err "Could not read config file"), t)
  | .ok config =>
    let t := Println "Getting Client" t
    match env.kubernetesNewForConfig config with
    | .error err => (.error (errors.Wrap err "Error getting Kubernetes Client"), t)
    | .ok clientset => (.ok clientset, t)

/-- The package variable `kubeconfig`, a string flag with default `"./config"`, read
after parsing: the value given on the command line, or the default. -/
def kubeconfig (given : Option String) : String :=
  given.getD "./config"

/-- The program, run on the process arguments.  `flag.Parse()` may end the process
with its own status; `log.Fatal` prints the error and exits with status 1; returning
from `main` exits 0. -/
def main {Cfg : Type} (env : Env Cfg) (args : List String) : Outcome :=
  match env.flagParse args with
  | .error status => { exitCode := status, trace := {} }
  | .ok given =>
    let t := Println "Read config" {}
    match getClient env (kubeconfig given) t with
    | (.error err, t) => { exitCode := 1, trace := Println err.Error t }
    | (.ok clientset, t) =>
      let kubeClient : KubeClient := { clientset := clientset }
      let t := Println "Creating Guestbook" t
      let t := CreateGuestBook kubeClient t
      let t := Println "Created Guestbook" t
      { exitCode := 0, trace := t }

end V1

/-! ## Version 2: deployments (`v2/main.go`) -/

namespace V2

/-- The package variable `namespace`. -/
def kubeNamespace : String := "default"

/-- The package variable `apiVersionExtensions`. -/
def apiVersionExtensions : String := "extensions/v1beta1"

/-- The package variable `typeMetaExtensionsDeployment`. -/
def typeMetaExtensionsDeployment : Api.TypeMeta :=
  { APIVersion := apiVersionExtensions, Kind := "Deployment" }

/-- The package variable `serviceTypeMeata`. -/
def serviceTypeMeata : Api.TypeMeta := { Kind := "Service", APIVersion := "1" }

/-- Holds the two clients used to talk to the cluster. -/
structure KubeClient where
  ExtensionsClient : ExtensionsClient
  ClientSet : Clientset

/-- The container of a deployment specification. -/
structure Container where
  Name : String := ""
  Image : String := ""
  PortName : String := ""
  ContainerPort : Int := 0
  HostPort : Int := 0
deriving DecidableEq, Repr

/-- The specification of a deployment. -/
structure Deployment where
  Name : String := ""
  Replicas : Int := 0
  Labels : Labels := []
  Container : Container := {}
deriving DecidableEq, Repr

/-- The specification of a service. -/
structure Service where
  Labels : Labels := []
  Name : String := ""
  ServicePort : Int := 0
  TargetPort : Api.IntOrString := {}
  Type_ : Api.ServiceType := ""
deriving DecidableEq, Repr

/-- The object `deployment` built at the start of `createDeployment`. -/
def deploymentObject (dep : Deployment) : Api.Deployment :=
  { TypeMeta := typeMetaExtensionsDeployment
    ObjectMeta := { Name := dep.Name }
    Spec :=
      { Replicas := some dep.Replicas
        Selector := some { MatchLabels := dep.Labels }
        Template :=
          { ObjectMeta := { Labels := dep.Labels }
            Spec :=
              { Containers :=
                  [{ Name := dep.Container.Name
                     Image := dep.Container.Image
                     Ports :=
                       [{ Name := dep.Container.Name
                          ContainerPort := dep.Container.ContainerPort }] }] } } } }

/-- Builds the deployment, issues the create call, wraps a failure. -/
def createDeployment (kc : KubeClient) (dep : Deployment) (t : Trace) :
    Option GoError × Trace :=
  let deployment := deploymentObject dep
  let err := kc.ExtensionsClient.createDeployment t.calls kubeNamespace deployment
  let t := t.record (Request.deployment kubeNamespace deployment)
  match err with
  | some e => (some (errors.Wrap e "Error creating deployment"), t)
  | none => (none, t)

/-- The object `svc` built at the start of `createService`. -/
def svcObject (service : Service) : Api.Service :=
  { TypeMeta := serviceTypeMeata
    ObjectMeta := { Name := service.Name, Labels := service.Labels }
    Spec :=
      { Ports := [{ Port := service.ServicePort, TargetPort := service.TargetPort }]
        Selector := service.Labels
        Type_ := service.Type_ } }

/-- Builds the service, issues the create call, wraps a failure. -/
def createService (kc : KubeClient) (service : Service) (t : Trace) :
    Option GoError × Trace :=
  let svc := svcObject service
  let err := kc.ClientSet.createService t.calls kubeNamespace svc
  let t := t.record (Request.service kubeNamespace svc)
  match err with
  | some e => (some (errors.Wrap e "Error creating service"), t)
  | none => (none, t)

/-- The local `redisMasterDep` of `CreateGuestbook`. -/
def redisMasterDep : Deployment :=
  { Name := "redis-master"
    Replicas := 1
    Labels := [("app", "redis"), ("role", "master")]
    Container :=
      { Name := "redis-master"
        Image := "redis:2.8.23"
        PortName := "redis-server"
        ContainerPort := 6379 } }

/-- The local `redisMasterSvc` of `CreateGuestbook`. -/
def redisMasterSvc : Service :=
  { Name := "redis-master"
    Labels := [("app", "redis"), ("role", "master")]
    ServicePort := 6379
    TargetPort := { Type_ := Api.IntstrType.String, StrVal := "redis-server" } }

/-- The local `redisSlaveDep` of `CreateGuestbook`. -/
def redisSlaveDep : Deployment :=
  { Name := "redis-slave"
    Replicas := 2
    Labels := [("app", "redis"), ("role", "slave")]
    Container :=
      { Name := "redis-slave"
        Image := "kubernetes/redis-slave:v2"
        PortName := "redis-server"
        ContainerPort := 6379 } }

/-- The local `redisSlaveSvc` of `CreateGuestbook`. -/
def redisSlaveSvc : Service :=
  { Name := "redis-slave"
    Labels := [("app", "redis"), ("role", "slave")]
    ServicePort := 6379
    TargetPort := { Type_ := Api.IntstrType.String, StrVal := "redis-server" } }

/-- The local `guestbookDep` of `CreateGuestbook`. -/
def guestbookDep : Deployment :=
  { Name := "guestbook"
    Labels := [("app", "guestbook")]
    Replicas := 3
    Container :=
      { Name := "guestbook"
        Image := "gcr.io/google_containers/guestbook:v3"
        PortName := "http-server"
        ContainerPort := 3000 } }

/-- The local `guestbookService` of `CreateGuestbook`. -/
def guestbookService : Service :=
  { Name := "guestbook"
    Labels := [("app", "guestbook")]
    ServicePort := 3000
    TargetPort := { StrVal := "http-server", Type_ := Api.IntstrType.String }
    Type_ := Api.ServiceTypeLoadBalancer }

/-- Creates the guestbook application: six submissions, each error only logged. -/
def CreateGuestbook (kc : KubeClient) (t : Trace) : Trace :=
  let t := Println "Creating Redis Master Deployment" t
  let r := createDeployment kc redisMasterDep t
  let t := logIfErr r.1 r.2
  let t := Println "Creating Redis Master Service" t
  let r := createService kc redisMasterSvc t
  let t := logIfErr r.1 r.2
  let t := Println "Creating Redis Slave Deployment" t
  let r := createDeployment kc redisSlaveDep t
  let t := logIfErr r.1 r.2
  let t := Println "Creating Redis Slave Service" t
  let r := createService kc redisSlaveSvc t
  let t := logIfErr r.1 r.2
  let t := Println "Creating Guestbook Deployment" t
  let r := createDeployment kc guestbookDep t
  let t := logIfErr r.1 r.2
  let t := Println "Creating Guestbook Service" t
  let r := createService kc guestbookService t
  logIfErr r.1 r.2

/-- Reads the configuration and builds both clients; each failure is wrapped. -/
def GetNewKubeClient {Cfg : Type} (env : Env Cfg) (configPath : String) (t : Trace) :
    Except GoError KubeClient × Trace :=
  match env.BuildConfigFromFlags "" configPath with
  | .error err => (.error (errors.Wrap err "Could not read config file"), t)
  | .ok config =>
    let t := Println "Getting Client" t
    match env.v1beta1NewForConfig config with
    | .error err => (.error (errors.Wrap err "Error getting Kubernetes Client"), t)
    | .ok extensionsClient =>
      match env.kubernetesNewForConfig config with
      | .error err => (.error (errors.Wrap err "Error getting Kubernetes Client"), t)
      | .ok clientSet =>
        (.ok { ExtensionsClient := extensionsClient, ClientSet := clientSet }, t)

/-- The package variable `kubeconfig`, a string flag with default `"./config"`, read
after parsing: the value given on the command line, or the default. -/
def kubeconfig (given : Option String) : String :=
  given.getD "./config"

/-- The program, run on the process arguments.  `flag.Parse()` may end the process
with its own status; on a client error the program prints the error and calls
`os.Exit(1)`; returning from `main` exits 0. -/
def main {Cfg : Type} (env : Env Cfg) (args : List String) : Outcome :=
  match env.flagParse args with
  | .error status => { exitCode := status, trace := {} }
  | .ok given =>
    match GetNewKubeClient env (kubeconfig given) {} with
    | (.error err, t) => { exitCode := 1, trace := Println err.Error t }
    | (.ok kubeClient, t) => { exitCode := 0, trace := CreateGuestbook kubeClient t }

end V2

/-! ## Sample clients and environments -/

/-- A clientset that accepts every create call. -/
def okClientset : Clientset :=
  { createReplicationController := fun _ _ _ => none
    createService := fun _ _ _ => none }

/-- A clientset that rejects every create call. -/
def failClientset : Clientset :=
  { createReplicationController := fun _ _ _ => some (GoError.base "already exists")
    createService := fun _ _ _ => some (GoError.base "already exists") }

/-- An extensions client that accepts every create call. -/
def okExtensionsClient : ExtensionsClient :=
  { createDeployment := fun _ _ _ => none }

/-- An extensions client that rejects every create call. -/
def failExtensionsClient : ExtensionsClient :=
  { createDeployment := fun _ _ _ => some (GoError.base "already exists") }

/-- A command-line parser in the manner of the `flag` package, for the one flag
`-kubeconfig`: no argument, or the flag followed by its value; anything else is
rejected with status 2. -/
def sampleFlagParse : List String → Except Nat (Option String)
  | [] => .ok none
  | ["-kubeconfig", path] => .ok (some path)
  | _ => .error 2

/-- An environment in which the configuration file cannot be read. -/
def noConfigEnv : Env Unit :=
  { flagParse := sampleFlagParse
    BuildConfigFromFlags := fun _ _ => .error (GoError.base "no such file")
    kubernetesNewForConfig := fun _ => .ok okClientset
    v1beta1NewForConfig := fun _ => .ok okExtensionsClient }

/-- An environment in which client construction succeeds and every create call fails. -/
def rejectingEnv : Env Unit :=
  { flagParse := sampleFlagParse
    BuildConfigFromFlags := fun _ _ => .ok ()
    kubernetesNewForConfig := fun _ => .ok failClientset
    v1beta1NewForConfig := fun _ => .ok failExtensionsClient }

/-- The six requests of version 1, in the order `CreateGuestBook` builds them. -/
def V1.recipe : List Request :=
  [ Request.replicationController V1.kubeNamespace (V1.rcObject V1.redisRepCont),
    Request.service V1.kubeNamespace (V1.svcObject V1.redisService),
    Request.replicationController V1.kubeNamespace (V1.rcObject V1.redisSlaveRepCont),
    Request.service V1.kubeNamespace (V1.svcObject V1.redisSlaveService),
    Request.replicationController V1.kubeNamespace (V1.rcObject V1.guestBookRepCont),
    Request.service V1.kubeNamespace (V1.svcObject V1.guestbookService) ]

/-- The six requests of version 2, in the order `CreateGuestbook` builds them. -/
def V2.recipe : List Request :=
  [ Request.deployment V2.kubeNamespace (V2.deploymentObject V2.redisMasterDep),
    Request.service V2.kubeNamespace (V2.svcObject V2.redisMasterSvc),
    Request.deployment V2.kubeNamespace (V2.deploymentObject V2.redisSlaveDep),
    Request.service V2.kubeNamespace (V2.svcObject V2.redisSlaveSvc),
    Request.deployment V2.kubeNamespace (V2.deploymentObject V2.guestbookDep),
    Request.service V2.kubeNamespace (V2.svcObject V2.guestbookService) ]

/-- The service object of a request, if it creates a service. -/
def Request.asService : Request → Option Api.Service
  | .service _ svc => some svc
  | _ => none

/-- The name and the service type of every service among the given requests. -/
def serviceTypes (rs : List Request) : List (String × Api.ServiceType) :=
  (rs.filterMap Request.asService).map fun svc => (svc.ObjectMeta.Name, svc.Spec.Type_)

/-- Client construction of version 1 fails: the configuration cannot be read, or the
clientset cannot be built from it. -/
def V1.constructionFails {Cfg : Type} (env : Env Cfg) (configPath : String) : Bool :=
  match env.BuildConfigFromFlags "" configPath with
  | .error _ => true
  | .ok config => !(env.kubernetesNewForConfig config).toBool

/-- Client construction of version 2 fails: the configuration cannot be read, or one
of the two clients cannot be built from it. -/
def V2.constructionFails {Cfg : Type} (env : Env Cfg) (configPath : String) : Bool :=
  match env.BuildConfigFromFlags "" configPath with
  | .error _ => true
  | .ok config =>
    !(env.v1beta1NewForConfig config).toBool || !(env.kubernetesNewForConfig config).toBool

/-- An environment in which the configuration is read and no clientset can be built. -/
def noClientEnv : Env Unit :=
  { flagParse := sampleFlagParse
    BuildConfigFromFlags := fun _ _ => .ok ()
    kubernetesNewForConfig := fun _ => .error (GoError.base "bad host")
    v1beta1NewForConfig := fun _ => .ok okExtensionsClient }

/-- An environment in which client construction succeeds and every create call
succeeds. -/
def acceptingEnv : Env Unit :=
  { flagParse := sampleFlagParse
    BuildConfigFromFlags := fun _ _ => .ok ()
    kubernetesNewForConfig := fun _ => .ok okClientset
    v1beta1NewForConfig := fun _ => .ok okExtensionsClient }

/-! ## Basic facts about the trace -/

@[simp] theorem Println_calls (line : String) (t : Trace) :
    (Println line t).calls = t.calls := rfl

@[simp] theorem logIfErr_calls (err : Option GoError) (t : Trace) :
    (logIfErr err t).calls = t.calls := by
  cases err <;> rfl

@[simp] theorem v1_createReplicationController_calls (kc : V1.KubeClient)
    (repCont : V1.ReplicationController) (t : Trace) :
    (V1.createReplicationController kc repCont t).2.calls =
      t.calls ++ [Request.replicationController V1.kubeNamespace (V1.rcObject repCont)] := by
  unfold V1.createReplicationController
  dsimp only
  split <;> rfl

@[simp] theorem v1_createService_calls (kc : V1.KubeClient) (service : V1.Service)
    (t : Trace) :
    (V1.createService kc service t).2.calls =
      t.calls ++ [Request.service V1.kubeNamespace (V1.svcObject service)] := by
  unfold V1.createService
  dsimp only
  split <;> rfl

@[simp] theorem v2_createDeployment_calls (kc : V2.KubeClient) (dep : V2.Deployment)
    (t : Trace) :
    (V2.createDeployment kc dep t).2.calls =
      t.calls ++ [Request.deployment V2.kubeNamespace (V2.deploymentObject dep)] := by
  unfold V2.createDeployment
  dsimp only
  split <;> rfl

@[simp] theorem v2_createService_calls (kc : V2.KubeClient) (service : V2.Service)
    (t : Trace) :
    (V2.createService kc service t).2.calls =
      t.calls ++ [Request.service V2.kubeNamespace (V2.svcObject service)] := by
  unfold V2.createService
  dsimp only
  split <;> rfl

/-- The requests of one run of the version 1 recipe, whatever the client answers. -/
theorem v1_recipe_calls (kc : V1.KubeClient) (t : Trace) :
    (V1.CreateGuestBook kc t).calls = t.calls ++ V1.recipe := by
  simp [V1.CreateGuestBook, V1.recipe]

/-- The requests of one run of the version 2 recipe, whatever the clients answer. -/
theorem v2_recipe_calls (kc : V2.KubeClient) (t : Trace) :
    (V2.CreateGuestbook kc t).calls = t.calls ++ V2.recipe := by
  simp [V2.CreateGuestbook, V2.recipe]

/-! ## The recipe runner -/

/-- C1 (fault isolation): for every client and every starting trace, one run of the
recipe runner of either version adds exactly six create calls to the trace, three of
them workload creates and three service creates; no client answer changes that. -/
theorem recipe_runner_issues_six_calls (kc1 : V1.KubeClient) (kc2 : V2.KubeClient)
    (t : Trace) :
    (∃ issued, (V1.CreateGuestBook kc1 t).calls = t.calls ++ issued ∧
        issued.length = 6 ∧
        (issued.filter Request.isWorkload).length = 3 ∧
        (issued.filter Request.isService).length = 3) ∧
    (∃ issued, (V2.CreateGuestbook kc2 t).calls = t.calls ++ issued ∧
        issued.length = 6 ∧
        (issued.filter Request.isWorkload).length = 3 ∧
        (issued.filter Request.isService).length = 3) := by
  refine ⟨⟨V1.recipe, v1_recipe_calls kc1 t, ?_, ?_, ?_⟩,
    ⟨V2.recipe, v2_recipe_calls kc2 t, ?_, ?_, ?_⟩⟩ <;>
  simp [V1.recipe, V2.recipe, Request.isWorkload, Request.isService]

/-- C2 (fixed sequence): for every client, the requests issued by the recipe runner are
one fixed list that does not depend on any answer.  In order: workload "redis-master"
(1 replica, container port 6379), service "redis-master" (port 6379), workload
"redis-slave" (3 replicas in version 1, 2 in version 2, container port 6379), service
"redis-slave" (port 6379), workload "guestbook" (3 replicas, container port 3000),
service "guestbook" (port 3000), each in namespace "default"; and every submitted
workload object carries the replica count of the specification it was built from. -/
theorem recipe_runner_fixed_sequence (kc1 : V1.KubeClient) (kc2 : V2.KubeClient)
    (t : Trace) :
    (V1.CreateGuestBook kc1 t).calls = t.calls ++ V1.recipe ∧
    V1.recipe.map Request.summary =
      [ (true, "default", "redis-master", some 1, [6379]),
        (false, "default", "redis-master", none, [6379]),
        (true, "default", "redis-slave", some 3, [6379]),
        (false, "default", "redis-slave", none, [6379]),
        (true, "default", "guestbook", some 3, [3000]),
        (false, "default", "guestbook", none, [3000]) ] ∧
    (V2.CreateGuestbook kc2 t).calls = t.calls ++ V2.recipe ∧
    V2.recipe.map Request.summary =
      [ (true, "default", "redis-master", some 1, [6379]),
        (false, "default", "redis-master", none, [6379]),
        (true, "default", "redis-slave", some 2, [6379]),
        (false, "default", "redis-slave", none, [6379]),
        (true, "default", "guestbook", some 3, [3000]),
        (false, "default", "guestbook", none, [3000]) ] ∧
    (∀ repCont : V1.ReplicationController,
      (V1.rcObject repCont).Spec.Replicas = some repCont.Replicas) ∧
    (∀ dep : V2.Deployment,
      (V2.deploymentObject dep).Spec.Replicas = some dep.Replicas) := by
  refine ⟨v1_recipe_calls kc1 t, ?_, v2_recipe_calls kc2 t, ?_,
    fun _ => rfl, fun _ => rfl⟩
  · rfl
  · rfl

/-- C3 (selector match): in both versions and for every client, the run issues a
workload and then a service for each of the tiers redis-master, redis-slave and
guestbook, and in each pair the selector of the service equals the selector of the
workload (the selector map of the replication controller, the `MatchLabels` of the
deployment) and the labels of its pod template; that label set is not empty. -/
theorem selector_match (kc1 : V1.KubeClient) (kc2 : V2.KubeClient) (t : Trace) :
    (∃ rc1 svc1 rc2 svc2 rc3 svc3 tpl1 tpl2 tpl3,
      (V1.CreateGuestBook kc1 t).calls = t.calls ++
        [ Request.replicationController "default" rc1, Request.service "default" svc1,
          Request.replicationController "default" rc2, Request.service "default" svc2,
          Request.replicationController "default" rc3, Request.service "default" svc3 ] ∧
      [rc1.ObjectMeta.Name, svc1.ObjectMeta.Name, rc2.ObjectMeta.Name, svc2.ObjectMeta.Name,
        rc3.ObjectMeta.Name, svc3.ObjectMeta.Name] =
        ["redis-master", "redis-master", "redis-slave", "redis-slave",
          "guestbook", "guestbook"] ∧
      rc1.Spec.Template = some tpl1 ∧ rc2.Spec.Template = some tpl2 ∧
      rc3.Spec.Template = some tpl3 ∧
      svc1.Spec.Selector = rc1.Spec.Selector ∧
      svc1.Spec.Selector = tpl1.ObjectMeta.Labels ∧ svc1.Spec.Selector ≠ [] ∧
      svc2.Spec.Selector = rc2.Spec.Selector ∧
      svc2.Spec.Selector = tpl2.ObjectMeta.Labels ∧ svc2.Spec.Selector ≠ [] ∧
      svc3.Spec.Selector = rc3.Spec.Selector ∧
      svc3.Spec.Selector = tpl3.ObjectMeta.Labels ∧ svc3.Spec.Selector ≠ []) ∧
    (∃ dep1 svc1 dep2 svc2 dep3 svc3,
      (V2.CreateGuestbook kc2 t).calls = t.calls ++
        [ Request.deployment "default" dep1, Request.service "default" svc1,
          Request.deployment "default" dep2, Request.service "default" svc2,
          Request.deployment "default" dep3, Request.service "default" svc3 ] ∧
      [dep1.ObjectMeta.Name, svc1.ObjectMeta.Name, dep2.ObjectMeta.Name,
        svc2.ObjectMeta.Name, dep3.ObjectMeta.Name, svc3.ObjectMeta.Name] =
        ["redis-master", "redis-master", "redis-slave", "redis-slave",
          "guestbook", "guestbook"] ∧
      dep1.Spec.Selector = some { MatchLabels := svc1.Spec.Selector } ∧
      svc1.Spec.Selector = dep1.Spec.Template.ObjectMeta.Labels ∧ svc1.Spec.Selector ≠ [] ∧
      dep2.Spec.Selector = some { MatchLabels := svc2.Spec.Selector } ∧
      svc2.Spec.Selector = dep2.Spec.Template.ObjectMeta.Labels ∧ svc2.Spec.Selector ≠ [] ∧
      dep3.Spec.Selector = some { MatchLabels := svc3.Spec.Selector } ∧
      svc3.Spec.Selector = dep3.Spec.Template.ObjectMeta.Labels ∧
      svc3.Spec.Selector ≠ []) := by
  constructor
  · refine ⟨_, _, _, _, _, _, _, _, _, v1_recipe_calls kc1 t, rfl, rfl, rfl, rfl,
      rfl, rfl, ?_, rfl, rfl, ?_, rfl, rfl, ?_⟩ <;>
    simp [V1.svcObject, V1.redisService, V1.redisSlaveService, V1.guestbookService]
  · refine ⟨_, _, _, _, _, _, v2_recipe_calls kc2 t, rfl, rfl, rfl, ?_, rfl, rfl,
      ?_, rfl, rfl, ?_⟩ <;>
    simp [V2.svcObject, V2.redisMasterSvc, V2.redisSlaveSvc, V2.guestbookService]

/-! ## The submitters -/

/-- C4 (named-port consistency), evaluated on the code.  Version 1 gives the container
port the port name and number of the specification.  Version 2 gives it the port number
of the specification and, as its name, the name of the container, not `PortName`: the
redis-master deployment is submitted with a container port named "redis-master", while
its specification says "redis-server" and the redis-master service targets the port
named "redis-server". -/
theorem v2_container_port_named_after_container :
    (∀ repCont : V1.ReplicationController,
      (V1.rcObject repCont).Spec.Template.map (fun tpl =>
          tpl.Spec.Containers.map fun c => c.Ports) =
        some [[{ Name := repCont.PortName, ContainerPort := repCont.PortNumber }]]) ∧
    (∀ dep : V2.Deployment,
      (V2.deploymentObject dep).Spec.Template.Spec.Containers.map (fun c => c.Ports) =
        [[{ Name := dep.Container.Name, ContainerPort := dep.Container.ContainerPort }]]) ∧
    (V2.deploymentObject V2.redisMasterDep).Spec.Template.Spec.Containers.map
        (fun c => c.Ports.map fun p => p.Name) = [["redis-master"]] ∧
    V2.redisMasterDep.Container.PortName = "redis-server" ∧
    (V2.svcObject V2.redisMasterSvc).Spec.Ports.map (fun p => p.TargetPort) =
      [{ Type_ := Api.IntstrType.String, StrVal := "redis-server" }] ∧
    V2.recipe[0]? = some (Request.deployment "default" (V2.deploymentObject V2.redisMasterDep)) ∧
    V2.recipe[1]? = some (Request.service "default" (V2.svcObject V2.redisMasterSvc)) :=
  ⟨fun _ => rfl, fun _ => rfl, rfl, rfl, rfl, rfl, rfl⟩

/-- C5 (label propagation), evaluated on the code.  The replication controller of
version 1 carries the label set of its specification as its metadata labels, as its
selector and as the labels of its pod template, and both `createService` functions put
the labels of the specification into the metadata of the service.  The deployment of
version 2 carries the label set as the `MatchLabels` of its selector and as the labels
of its pod template, but not in its own metadata: the redis-master deployment is
submitted with no metadata labels, while its specification has the labels app=redis,
role=master. -/
theorem v2_deployment_metadata_unlabelled :
    (V2.deploymentObject V2.redisMasterDep).ObjectMeta.Labels = [] ∧
    V2.redisMasterDep.Labels = [("app", "redis"), ("role", "master")] ∧
    (V2.deploymentObject V2.redisMasterDep).ObjectMeta.Labels ≠ V2.redisMasterDep.Labels ∧
    V2.recipe[0]? =
      some (Request.deployment "default" (V2.deploymentObject V2.redisMasterDep)) ∧
    (∀ repCont : V1.ReplicationController,
      (V1.rcObject repCont).ObjectMeta.Labels = repCont.Labels ∧
      (V1.rcObject repCont).Spec.Selector = repCont.Labels ∧
      (V1.rcObject repCont).Spec.Template.map (fun tpl => tpl.ObjectMeta.Labels) =
        some repCont.Labels) ∧
    (∀ dep : V2.Deployment,
      (V2.deploymentObject dep).Spec.Selector = some { MatchLabels := dep.Labels } ∧
      (V2.deploymentObject dep).Spec.Template.ObjectMeta.Labels = dep.Labels) ∧
    (∀ service : V1.Service, (V1.svcObject service).ObjectMeta.Labels = service.Labels) ∧
    (∀ service : V2.Service, (V2.svcObject service).ObjectMeta.Labels = service.Labels) := by
  refine ⟨rfl, rfl, ?_, rfl, fun _ => ⟨rfl, rfl, rfl⟩, fun _ => ⟨rfl, rfl⟩,
    fun _ => rfl, fun _ => rfl⟩
  simp [V2.deploymentObject, V2.redisMasterDep]

/-- C6 (exposure mode): in both versions and for every client, the services submitted
by the recipe runner are "redis-master" and "redis-slave" with the unset (empty) type
and "guestbook" with type LoadBalancer, which is not the unset type; and `createService`
copies `ServicePort` and `TargetPort` into the single port rule and `Type` into the
type field of the object it submits. -/
theorem exposure_mode_mapping (kc1 : V1.KubeClient) (kc2 : V2.KubeClient) (t : Trace) :
    (∃ issued, (V1.CreateGuestBook kc1 t).calls = t.calls ++ issued ∧
      serviceTypes issued =
        [("redis-master", ""), ("redis-slave", ""), ("guestbook", "LoadBalancer")]) ∧
    (∃ issued, (V2.CreateGuestbook kc2 t).calls = t.calls ++ issued ∧
      serviceTypes issued =
        [("redis-master", ""), ("redis-slave", ""), ("guestbook", "LoadBalancer")]) ∧
    Api.ServiceTypeLoadBalancer = "LoadBalancer" ∧ Api.ServiceTypeLoadBalancer ≠ "" ∧
    (∀ (service : V1.Service) (t0 : Trace),
      (V1.createService kc1 service t0).2.calls =
        t0.calls ++ [Request.service "default" (V1.svcObject service)] ∧
      (V1.svcObject service).Spec.Ports =
        [{ Port := service.ServicePort, TargetPort := service.TargetPort }] ∧
      (V1.svcObject service).Spec.Type_ = service.Type_) ∧
    (∀ (service : V2.Service) (t0 : Trace),
      (V2.createService kc2 service t0).2.calls =
        t0.calls ++ [Request.service "default" (V2.svcObject service)] ∧
      (V2.svcObject service).Spec.Ports =
        [{ Port := service.ServicePort, TargetPort := service.TargetPort }] ∧
      (V2.svcObject service).Spec.Type_ = service.Type_) := by
  refine ⟨⟨V1.recipe, v1_recipe_calls kc1 t, rfl⟩,
    ⟨V2.recipe, v2_recipe_calls kc2 t, rfl⟩, rfl, by decide,
    fun service t0 => ⟨v1_createService_calls kc1 service t0, rfl, rfl⟩,
    fun service t0 => ⟨v2_createService_calls kc2 service t0, rfl, rfl⟩⟩

/-- C7 (submitter result): for every specification, client and trace, each submitter
issues exactly one create call; it returns no error exactly when the client answered
with none; and on a failure it returns the client error wrapped with its context, whose
message is the context, then ": ", then the message of the client error. -/
theorem submitter_result (kc1 : V1.KubeClient) (kc2 : V2.KubeClient)
    (repCont : V1.ReplicationController) (service1 : V1.Service)
    (dep : V2.Deployment) (service2 : V2.Service) (t : Trace) :
    ((V1.createReplicationController kc1 repCont t).2.calls =
        t.calls ++ [Request.replicationController "default" (V1.rcObject repCont)] ∧
      (V1.createReplicationController kc1 repCont t).1 =
        (kc1.clientset.createReplicationController t.calls "default"
          (V1.rcObject repCont)).map
          (fun e => errors.Wrap e "Error creating replication controller") ∧
      ((V1.createReplicationController kc1 repCont t).1 = none ↔
        kc1.clientset.createReplicationController t.calls "default"
          (V1.rcObject repCont) = none)) ∧
    ((V1.createService kc1 service1 t).2.calls =
        t.calls ++ [Request.service "default" (V1.svcObject service1)] ∧
      (V1.createService kc1 service1 t).1 =
        (kc1.clientset.createService t.calls "default" (V1.svcObject service1)).map
          (fun e => errors.Wrap e "Error creating service") ∧
      ((V1.createService kc1 service1 t).1 = none ↔
        kc1.clientset.createService t.calls "default" (V1.svcObject service1) = none)) ∧
    ((V2.createDeployment kc2 dep t).2.calls =
        t.calls ++ [Request.deployment "default" (V2.deploymentObject dep)] ∧
      (V2.createDeployment kc2 dep t).1 =
        (kc2.ExtensionsClient.createDeployment t.calls "default"
          (V2.deploymentObject dep)).map
          (fun e => errors.Wrap e "Error creating deployment") ∧
      ((V2.createDeployment kc2 dep t).1 = none ↔
        kc2.ExtensionsClient.createDeployment t.calls "default"
          (V2.deploymentObject dep) = none)) ∧
    ((V2.createService kc2 service2 t).2.calls =
        t.calls ++ [Request.service "default" (V2.svcObject service2)] ∧
      (V2.createService kc2 service2 t).1 =
        (kc2.ClientSet.createService t.calls "default" (V2.svcObject service2)).map
          (fun e => errors.Wrap e "Error creating service") ∧
      ((V2.createService kc2 service2 t).1 = none ↔
        kc2.ClientSet.createService t.calls "default" (V2.svcObject service2) = none)) ∧
    (∀ (e : GoError) (context : String),
      (errors.Wrap e context).Error = context ++ ": " ++ e.Error) := by
  refine ⟨⟨v1_createReplicationController_calls kc1 repCont t, ?_, ?_⟩,
    ⟨v1_createService_calls kc1 service1 t, ?_, ?_⟩,
    ⟨v2_createDeployment_calls kc2 dep t, ?_, ?_⟩,
    ⟨v2_createService_calls kc2 service2 t, ?_, ?_⟩, fun _ _ => rfl⟩
  all_goals
    simp only [V1.createReplicationController, V1.createService, V2.createDeployment,
      V2.createService, V1.kubeNamespace, V2.kubeNamespace]
    split <;> simp_all

/-! ## The two programs -/

/-- Version 1 as a whole: a rejected command line ends the process with the status of
the flag package and no create call; a failed client construction ends it with status 1
and no create call; otherwise the process issues the recipe and ends with status 0. -/
theorem v1_main_result {Cfg : Type} (env : Env Cfg) (args : List String) :
    (V1.main env args).exitCode =
        (match env.flagParse args with
          | .error status => status
          | .ok given => if V1.constructionFails env (V1.kubeconfig given) then 1 else 0) ∧
    (V1.main env args).trace.calls =
        (match env.flagParse args with
          | .error _ => []
          | .ok given =>
            if V1.constructionFails env (V1.kubeconfig given) then [] else V1.recipe) := by
  unfold V1.main V1.getClient V1.constructionFails
  cases env.flagParse args with
  | error status => exact ⟨rfl, rfl⟩
  | ok given =>
    dsimp only
    cases env.BuildConfigFromFlags "" (V1.kubeconfig given) with
    | error e => exact ⟨rfl, rfl⟩
    | ok config =>
      dsimp only
      cases env.kubernetesNewForConfig config with
      | error e => exact ⟨rfl, rfl⟩
      | ok clientset => simp [Except.toBool, v1_recipe_calls, Println]

/-- Version 2 as a whole: a rejected command line ends the process with the status of
the flag package and no create call; a failed client construction ends it with status 1
and no create call; otherwise the process issues the recipe and ends with status 0. -/
theorem v2_main_result {Cfg : Type} (env : Env Cfg) (args : List String) :
    (V2.main env args).exitCode =
        (match env.flagParse args with
          | .error status => status
          | .ok given => if V2.constructionFails env (V2.kubeconfig given) then 1 else 0) ∧
    (V2.main env args).trace.calls =
        (match env.flagParse args with
          | .error _ => []
          | .ok given =>
            if V2.constructionFails env (V2.kubeconfig given) then [] else V2.recipe) := by
  unfold V2.main V2.GetNewKubeClient V2.constructionFails
  cases env.flagParse args with
  | error status => exact ⟨rfl, rfl⟩
  | ok given =>
    dsimp only
    cases env.BuildConfigFromFlags "" (V2.kubeconfig given) with
    | error e => exact ⟨rfl, rfl⟩
    | ok config =>
      dsimp only
      cases env.v1beta1NewForConfig config with
      | error e => exact ⟨rfl, rfl⟩
      | ok extensionsClient =>
        dsimp only
        cases env.kubernetesNewForConfig config with
        | error e => exact ⟨rfl, rfl⟩
        | ok clientSet => simp [Except.toBool, v2_recipe_calls, Println]

/-- C8 (fatal client construction): in both versions, on every command line that
`flag.Parse` accepts, whenever client construction fails for the configuration path
the flag holds (the configuration cannot be read, or a client cannot be built from it),
the whole run of `main` issues no create call. -/
theorem fatal_client_construction {Cfg : Type} (env : Env Cfg) (args : List String)
    (given : Option String) (hparse : env.flagParse args = .ok given) :
    (V1.constructionFails env (V1.kubeconfig given) = true →
      (V1.main env args).trace.calls = []) ∧
    (V2.constructionFails env (V2.kubeconfig given) = true →
      (V2.main env args).trace.calls = []) := by
  constructor
  · intro h
    rw [(v1_main_result env args).2, hparse]
    simp [h]
  · intro h
    rw [(v2_main_result env args).2, hparse]
    simp [h]

/-- C8 at concrete environments, run without arguments (so on the default path
"./config"): an unreadable configuration for version 1, and a clientset that cannot be
built for version 2. -/
theorem fatal_client_construction_witness :
    noConfigEnv.flagParse [] = .ok none ∧
    V1.kubeconfig none = "./config" ∧
    V1.constructionFails noConfigEnv "./config" = true ∧
    (V1.main noConfigEnv []).trace.calls = [] ∧
    V2.constructionFails noClientEnv "./config" = true ∧
    (V2.main noClientEnv []).trace.calls = [] :=
  ⟨rfl, rfl, rfl, (fatal_client_construction noConfigEnv [] none rfl).1 rfl,
    rfl, (fatal_client_construction noClientEnv [] none rfl).2 rfl⟩

/-- C9 as stated fails on a command line that `flag.Parse` rejects: with the argument
`-bogus` both programs end with status 2, a failure status, although no client
construction failed: none was attempted, no create call was issued, and construction
succeeds in this environment. -/
theorem exit_status_rejected_command_line :
    acceptingEnv.flagParse ["-bogus"] = .error 2 ∧
    (V1.main acceptingEnv ["-bogus"]).exitCode = 2 ∧
    (V2.main acceptingEnv ["-bogus"]).exitCode = 2 ∧
    (V1.main acceptingEnv ["-bogus"]).trace = {} ∧
    (V2.main acceptingEnv ["-bogus"]).trace = {} ∧
    V1.constructionFails acceptingEnv "./config" = false ∧
    V2.constructionFails acceptingEnv "./config" = false ∧
    (V1.main acceptingEnv []).exitCode = 0 ∧
    (V2.main acceptingEnv []).exitCode = 0 := by
  refine ⟨rfl, rfl, rfl, rfl, rfl, rfl, rfl, ?_, ?_⟩
  · rw [(v1_main_result acceptingEnv []).1]
    rfl
  · rw [(v2_main_result acceptingEnv []).1]
    rfl

/-- C9, amended (exit status): in both versions the process ends with a non-zero
status if and only if `flag.Parse` rejected the command line with a non-zero status or,
the command line accepted, client construction failed for the path the flag holds.  A
rejected command line ends the process with the status of the flag package; after an
accepted one the status is 1 when client construction failed and 0 otherwise, for every
behaviour of the clients on the six create calls. -/
theorem exit_status {Cfg : Type} (env : Env Cfg) (args : List String) :
    ((V1.main env args).exitCode ≠ 0 ↔
      (∃ status, env.flagParse args = .error status ∧ status ≠ 0) ∨
      (∃ given, env.flagParse args = .ok given ∧
        V1.constructionFails env (V1.kubeconfig given) = true)) ∧
    ((V2.main env args).exitCode ≠ 0 ↔
      (∃ status, env.flagParse args = .error status ∧ status ≠ 0) ∨
      (∃ given, env.flagParse args = .ok given ∧
        V2.constructionFails env (V2.kubeconfig given) = true)) ∧
    (V1.main env args).exitCode =
      (match env.flagParse args with
        | .error status => status
        | .ok given => if V1.constructionFails env (V1.kubeconfig given) then 1 else 0) ∧
    (V2.main env args).exitCode =
      (match env.flagParse args with
        | .error status => status
        | .ok given => if V2.constructionFails env (V2.kubeconfig given) then 1 else 0) := by
  refine ⟨?_, ?_, (v1_main_result env args).1, (v2_main_result env args).1⟩
  · rw [(v1_main_result env args).1]
    cases env.flagParse args with
    | error status => simp
    | ok given => cases V1.constructionFails env (V1.kubeconfig given) <;> simp
  · rw [(v2_main_result env args).1]
    cases env.flagParse args with
    | error status => simp
    | ok given => cases V2.constructionFails env (V2.kubeconfig given) <;> simp

/-- C10 (version equivalence on the exposure side): for every service specification the
two `createService` functions build the same object and submit it in the same namespace;
for all clients the two recipe runners issue six requests each, the same service
requests at calls 2, 4 and 6, and workload requests of different kinds (replication
controller against deployment) at calls 1, 3 and 5. -/
theorem service_side_equivalence (kc1 : V1.KubeClient) (kc2 : V2.KubeClient) (t : Trace)
    (labels : Labels) (name : String) (servicePort : Int) (targetPort : Api.IntOrString)
    (type : Api.ServiceType) :
    V1.svcObject
        { Labels := labels, Name := name, ServicePort := servicePort,
          TargetPort := targetPort, Type_ := type } =
      V2.svcObject
        { Labels := labels, Name := name, ServicePort := servicePort,
          TargetPort := targetPort, Type_ := type } ∧
    V1.kubeNamespace = V2.kubeNamespace ∧
    (∃ w1 w2 w3 d1 d2 d3 s1 s2 s3,
      (V1.CreateGuestBook kc1 t).calls = t.calls ++
        [ Request.replicationController "default" w1, Request.service "default" s1,
          Request.replicationController "default" w2, Request.service "default" s2,
          Request.replicationController "default" w3, Request.service "default" s3 ] ∧
      (V2.CreateGuestbook kc2 t).calls = t.calls ++
        [ Request.deployment "default" d1, Request.service "default" s1,
          Request.deployment "default" d2, Request.service "default" s2,
          Request.deployment "default" d3, Request.service "default" s3 ]) :=
  ⟨rfl, rfl, _, _, _, _, _, _, _, _, _, v1_recipe_calls kc1 t,
    v2_recipe_calls kc2 t⟩
